import Mathlib

/-!
Shallow embedding of the shopgpt multi-platform product-search gateway:
the Amazon and Flipkart MCP scraper services
(`src/shopping_bot/mcp_server/amazon_mcp.py`,
`src/shopping_bot/mcp_server/flipkart_mcp.py`).

Texts are modelled as `List Char` (`Str`), Python floats as exact
rationals (`ℚ`), and the browser-driven scrape as an explicit input
(`Scrape`): either a session-level failure (the outer `except` path) or
the list of candidate item elements together with the texts/attributes
the extraction code reads from them.  The session cache is explicit
state threaded through `search_products`, and `time.time()` is an
explicit `now : ℚ` argument.
-/

set_option linter.unusedVariables false

abbrev Str := List Char

/-- Python's whitespace set for `str.strip()` and the regex class `\s`. -/
def isPySpace (c : Char) : Bool :=
  c == ' ' || c == '\t' || c == '\n' || c == '\r' || c == '\x0b' || c == '\x0c'

/-- Python `s.strip()`: drop whitespace from both ends. -/
def pyStrip (s : Str) : Str :=
  ((s.dropWhile isPySpace).reverse.dropWhile isPySpace).reverse

/-- Decimal value of a digit string (`int(...)` on a `\d+` match). -/
def digitsVal (ds : Str) : Nat :=
  ds.foldl (fun a c => a * 10 + (c.toNat - 48)) 0

/-- `int(re.findall(r'\d+', s)[0])`: the first maximal run of digits in `s`. -/
def firstNat (s : Str) : Option Nat :=
  let run := (s.dropWhile (fun c => !c.isDigit)).takeWhile (fun c => c.isDigit)
  if run.isEmpty then none else some (digitsVal run)

/-- Helper for `pyTitle`: the boolean records whether the previous character
was alphabetic. -/
def pyTitleAux : Bool → Str → Str
  | _, [] => []
  | prevAlpha, c :: rest =>
    (if c.isAlpha then (if prevAlpha then c.toLower else c.toUpper) else c) ::
      pyTitleAux c.isAlpha rest

/-- Python `s.title()`: first letter of every alphabetic run uppercased,
the rest lowercased. -/
def pyTitle (s : Str) : Str := pyTitleAux false s

/-- Insert a comma after every three characters, input least-significant first. -/
def commaRev : Str → Str
  | a :: b :: c :: d :: rest => a :: b :: c :: ',' :: commaRev (d :: rest)
  | ds => ds

/-- Python `f"{n:,}"` for a natural number. -/
def natComma (n : Nat) : Str := (commaRev (Nat.toDigits 10 n).reverse).reverse

/-- Python `f"{n:,}"` for an integer. -/
def pyComma (n : Int) : Str :=
  if n < 0 then '-' :: natComma n.natAbs else natComma n.natAbs

/-- Python `int()` applied to a float value (floats modelled as exact
rationals): truncation toward zero. -/
def pyInt (q : ℚ) : ℤ := if 0 ≤ q then ⌊q⌋ else ⌈q⌉

/-- Python `s.replace(old, new)` for a one-character `old`. -/
def replaceChar (old : Char) (new : Str) (s : Str) : Str :=
  s.flatMap (fun c => if c == old then new else [c])

/-- Whether `needle` occurs as a contiguous substring of the second argument
(Python's `needle in hay`). -/
def strContains (needle : Str) : Str → Bool
  | [] => needle.isEmpty
  | c :: rest => needle.isPrefixOf (c :: rest) || strContains needle rest

/-- One extracted product dict.  `source_id` is the `asin` key (Amazon) or
the `product_id` key (Flipkart); fallback records carry neither. -/
structure ProductRecord where
  name : Str
  price : Str
  price_num : Int
  url : Str
  source_id : Option Str
  platform : Str
deriving DecidableEq

/-- The result dict built by `search_products` (also the cache entry value).
`timestamp` is optional so that a corrupted entry with the key missing is
expressible; the adapter itself always stores `some now`. -/
structure SearchResult where
  query : Str
  price_max : ℚ
  count : Nat
  products : List ProductRecord
  timestamp : Option ℚ
deriving DecidableEq

/-- The session cache.  The source keys it by the string
`f"{query}:{price_max}"`; since `str(price_max)` contains no colon that
string determines the pair, so the model keys by the pair directly. -/
abbrev Cache := List ((Str × ℚ) × SearchResult)

def cacheFind : Cache → Str × ℚ → Option SearchResult
  | [], _ => none
  | (k, r) :: rest, key => if key = k then some r else cacheFind rest key

/-- The cache check at the top of `search_products`: a stored entry is
returned iff `time.time() - cached.get('timestamp', 0) < self.cache_timeout`
with `cache_timeout = 300`. -/
def cacheHit (cache : Cache) (now : ℚ) (key : Str × ℚ) : Option SearchResult :=
  match cacheFind cache key with
  | some cached => if now - (cached.timestamp.getD 0) < 300 then some cached else none
  | none => none

/-- Outcome of the browser-driven part of one call: `fail` is any exception
caught by the outer `except` (launch failure, navigation timeout, ...);
`ok` carries the elements found by the container selector, before the
`[:12]` truncation. -/
inductive Scrape (α : Type) where
  | fail
  | ok (allItems : List α)

/-- What one `search_products` call produces: the returned result dict, the
cache afterwards, and whether a browser fetch was performed (false on a
cache hit). -/
structure SearchOut where
  result : SearchResult
  cache : Cache
  fetched : Bool
deriving DecidableEq

/-- The per-item extraction loop shared by both adapters: skip items whose
identifier attribute fails the validity check, append each successfully
extracted record, and break as soon as 6 records are collected.  A
per-item exception is caught and the loop continues, which coincides with
`extract` returning `none`. -/
def scrapeLoop {α : Type} (valid : α → Bool) (extract : α → Option ProductRecord) :
    List α → List ProductRecord → List ProductRecord
  | [], acc => acc
  | it :: rest, acc =>
    if valid it then
      let acc' :=
        match extract it with
        | some p => acc ++ [p]
        | none => acc
      if 6 ≤ acc'.length then acc' else scrapeLoop valid extract rest acc'
    else scrapeLoop valid extract rest acc

/-- Identifier check and extraction combined, for stating what the loop
collects in discovery order. -/
def fullExtract {α : Type} (valid : α → Bool) (extract : α → Option ProductRecord)
    (it : α) : Option ProductRecord :=
  if valid it then extract it else none

/-- One Amazon `.s-result-item` element, as read by `_extract_with_asin`:
the `data-asin` attribute, the inner text of the first name-selector match,
and the inner text of the first price-selector match. -/
structure AItem where
  dataAsin : Option Str
  nameText : Option Str
  priceText : Option Str
deriving DecidableEq

/-- `if asin and len(asin) == 10 and asin != ''`. -/
def amazonValid (it : AItem) : Bool :=
  match it.dataAsin with
  | some a => !a.isEmpty && a.length == 10
  | none => false

/-- Amazon price parsing: `re.sub(r'[₹,\s.]', '', price_text)` (note that
the decimal point is removed as well) and then the first `\d+` run. -/
def amazonPriceParse (t : Str) : Option Nat :=
  firstNat (t.filter (fun c => !(c == '₹' || c == ',' || c == '.' || isPySpace c)))

/-- `AmazonScraper._extract_with_asin`. -/
def amazonExtract (price_max : ℚ) (asin : Str) (it : AItem) : Option ProductRecord :=
  match it.nameText with
  | none => none
  | some rawName =>
    let name := pyStrip rawName
    if name.length < 5 then none
    else
      match it.priceText with
      | none => none
      | some rawPrice =>
        match amazonPriceParse (pyStrip rawPrice) with
        | none => none
        | some n =>
          if price_max < (n : ℚ) then none
          else some
            { name := name.take 80
              price := '₹' :: pyComma n
              price_num := (n : Int)
              url := "https://www.amazon.in/dp/".toList ++ asin
              source_id := some asin
              platform := "amazon".toList }

/-- `AmazonScraper._fallback_products` (0.6 and 1.2 modelled as 3/5, 6/5). -/
def amazonFallback (query : Str) (price_max : ℚ) : List ProductRecord :=
  let base : Int := min 1500 (pyInt (price_max * (3 / 5)))
  [ { name := pyTitle query ++ " - Best Value".toList
      price := '₹' :: pyComma base
      price_num := base
      url := "https://www.amazon.in/s?k=".toList ++ replaceChar ' ' "+".toList query
      source_id := none
      platform := "amazon".toList },
    { name := pyTitle query ++ " - Top Rated".toList
      price := '₹' :: pyComma (pyInt ((base : ℚ) * (6 / 5)))
      price_num := pyInt ((base : ℚ) * (6 / 5))
      url := "https://www.amazon.in/s?k=".toList ++ query ++ "+bestseller".toList
      source_id := none
      platform := "amazon".toList } ]

/-- `AmazonScraper.search_products`.  The `platform` parameter is accepted
(with source default `"amazon"`) but never read by the body. -/
def amazonSearch (cache : Cache) (now : ℚ) (scrape : Scrape AItem) (query : Str)
    (price_max : ℚ) (platform : Str) : SearchOut :=
  let key := (query, price_max)
  match cacheHit cache now key with
  | some cached => ⟨cached, cache, false⟩
  | none =>
    let products :=
      match scrape with
      | .ok allItems =>
        scrapeLoop amazonValid (fun it => amazonExtract price_max (it.dataAsin.getD []) it)
          (allItems.take 12) []
      | .fail => amazonFallback query price_max
    let result : SearchResult :=
      { query := query
        price_max := price_max
        count := products.length
        products := products.take 6
        timestamp := some now }
    ⟨result, (key, result) :: cache, true⟩

/-- One element found by a Flipkart name selector: its inner text and its
`title` attribute (if any). -/
structure FNameEl where
  text : Str
  titleAttr : Option Str
deriving DecidableEq

/-- One Flipkart `[data-id]` element, as read by `_extract_with_id`:
the `data-id` attribute, the elements found by the name-selector chain (in
selector order), the inner texts found by the price-selector chain (in
selector order), the whole item's inner text (for the aggressive price
fallback), and the `href` attribute of each `<a>` descendant. -/
structure FItem where
  dataId : Option Str
  nameEls : List FNameEl
  priceTexts : List Str
  itemText : Str
  links : List (Option Str)
deriving DecidableEq

/-- `if product_id and len(product_id) > 3`. -/
def flipkartValid (it : FItem) : Bool :=
  match it.dataId with
  | some s => !s.isEmpty && 3 < s.length
  | none => false

/-- The name-selector chain: a selector's element wins with its stripped
inner text when that is nonempty of length > 5, failing that with its
`title` attribute when that is nonempty of length > 5. -/
def flipkartNameChain : List FNameEl → Option Str
  | [] => none
  | el :: rest =>
    let text := pyStrip el.text
    if !text.isEmpty && 5 < text.length then some text
    else
      match el.titleAttr with
      | some ta => if !ta.isEmpty && 5 < ta.length then some ta else flipkartNameChain rest
      | none => flipkartNameChain rest

/-- Flipkart price parsing for one selector text:
`price_text.replace('₹', '').replace(',', '').replace(' ', '')` and then
the first `\d+` run (the decimal point is kept, so `"₹1,299.00"` stops at
`1299`). -/
def flipkartPriceParse (t : Str) : Option Nat :=
  firstNat ((pyStrip t).filter (fun c => !(c == '₹' || c == ',' || c == ' ')))

/-- The price-selector chain: first selector text that yields a digit run wins. -/
def flipkartPriceChain : List Str → Option Nat
  | [] => none
  | t :: rest =>
    match flipkartPriceParse t with
    | some n => some n
    | none => flipkartPriceChain rest

/-- The regex group `(\d+,?\d*)` matched at the start of `s`. -/
def priceGroupAt (s : Str) : Option Str :=
  let d1 := s.takeWhile (fun c => c.isDigit)
  if d1.isEmpty then none
  else
    match s.drop d1.length with
    | ',' :: rest2 => some (d1 ++ ',' :: rest2.takeWhile (fun c => c.isDigit))
    | _ => some d1

/-- `re.findall(pat + r'\s*(\d+,?\d*)', text)[0]`: scan left to right for a
position where `pat` (given as a prefix matcher returning the remainder)
matches and, after optional whitespace, the group matches. -/
def scanPricePattern (pat : Str → Option Str) : Str → Option Str
  | [] => none
  | c :: rest =>
    match pat (c :: rest) with
    | some after =>
      match priceGroupAt (after.dropWhile isPySpace) with
      | some g => some g
      | none => scanPricePattern pat rest
    | none => scanPricePattern pat rest

/-- Prefix of pattern `r'₹\s*(\d+,?\d*)'`. -/
def rupeePat : Str → Option Str
  | '₹' :: r => some r
  | _ => none

/-- Prefix of pattern `r'Rs\.?\s*(\d+,?\d*)'` (the optional dot is consumed
when present; backtracking never helps here since an unconsumed dot can
match neither `\s` nor `\d`). -/
def rsPat : Str → Option Str
  | 'R' :: 's' :: '.' :: r => some r
  | 'R' :: 's' :: r => some r
  | _ => none

/-- Prefix of pattern `r'INR\s*(\d+,?\d*)'`. -/
def inrPat : Str → Option Str
  | 'I' :: 'N' :: 'R' :: r => some r
  | _ => none

/-- `matches[0].replace(',', '')` followed by the `isdigit()` guard and `int(...)`. -/
def priceFromGroup (g : Option Str) : Option Nat :=
  match g with
  | some m =>
    let ds := m.filter (fun c => !(c == ','))
    if !ds.isEmpty && ds.all (fun c => c.isDigit) then some (digitsVal ds) else none
  | none => none

/-- The aggressive fallback: scan the whole item text with the three
currency patterns in order; a pattern whose first match fails `isdigit()`
falls through to the next pattern. -/
def flipkartAggressive (t : Str) : Option Nat :=
  match priceFromGroup (scanPricePattern rupeePat t) with
  | some n => some n
  | none =>
    match priceFromGroup (scanPricePattern rsPat t) with
    | some n => some n
    | none => priceFromGroup (scanPricePattern inrPat t)

/-- Python truthiness of the `price_num` variable: `None` and `0` are falsy. -/
def truthyNat : Option Nat → Option Nat
  | some n => if n == 0 then none else some n
  | none => none

/-- The `<a>` loop: the first truthy `href` containing `/p/` or `pid=`
yields a URL (query string dropped; relative paths resolved against the
Flipkart origin); an `href` with the marker but starting with neither
`http` nor `/` sets nothing and the loop continues. -/
def flipkartUrlLoop : List (Option Str) → Option Str
  | [] => none
  | href? :: rest =>
    match href? with
    | none => flipkartUrlLoop rest
    | some href =>
      if href.isEmpty then flipkartUrlLoop rest
      else if strContains "/p/".toList href || strContains "pid=".toList href then
        if "http".toList.isPrefixOf href then some (href.takeWhile (fun c => !(c == '?')))
        else if "/".toList.isPrefixOf href then
          some ("https://www.flipkart.com".toList ++ href.takeWhile (fun c => !(c == '?')))
        else flipkartUrlLoop rest
      else flipkartUrlLoop rest

/-- Final URL choice: the loop's URL unless it is missing or contains
`/search`, in which case the platform search URL parameterized by the
item's `data-id` is used. -/
def flipkartChooseUrl (links : List (Option Str)) (query product_id : Str) : Str :=
  match flipkartUrlLoop links with
  | some url =>
    if strContains "/search".toList url then
      "https://www.flipkart.com/search?q=".toList ++ replaceChar ' ' "%20".toList query ++
        "&pid=".toList ++ product_id
    else url
  | none =>
    "https://www.flipkart.com/search?q=".toList ++ replaceChar ' ' "%20".toList query ++
      "&pid=".toList ++ product_id

/-- `FlipkartScraper._extract_with_id`. -/
def flipkartExtract (query : Str) (price_max : ℚ) (product_id : Str) (it : FItem) :
    Option ProductRecord :=
  match flipkartNameChain it.nameEls with
  | none => none
  | some name =>
    if name.isEmpty || name.length < 5 then none
    else
      let priceNum :=
        match truthyNat (flipkartPriceChain it.priceTexts) with
        | some n => some n
        | none => truthyNat (flipkartAggressive it.itemText)
      match priceNum with
      | none => none
      | some n =>
        if price_max < (n : ℚ) then none
        else some
          { name := name.take 80
            price := '₹' :: pyComma n
            price_num := (n : Int)
            url := flipkartChooseUrl it.links query product_id
            source_id := some product_id
            platform := "flipkart".toList }

/-- `FlipkartScraper._fallback_products`. -/
def flipkartFallback (query : Str) (price_max : ℚ) : List ProductRecord :=
  let base : Int := min 1500 (pyInt (price_max * (3 / 5)))
  [ { name := pyTitle query ++ " - Best Value".toList
      price := '₹' :: pyComma base
      price_num := base
      url := "https://www.flipkart.com/search?q=".toList ++ replaceChar ' ' "%20".toList query
      source_id := none
      platform := "flipkart".toList },
    { name := pyTitle query ++ " - Top Rated".toList
      price := '₹' :: pyComma (pyInt ((base : ℚ) * (6 / 5)))
      price_num := pyInt ((base : ℚ) * (6 / 5))
      url := "https://www.flipkart.com/search?q=".toList ++ query ++ "+bestseller".toList
      source_id := none
      platform := "flipkart".toList } ]

/-- `FlipkartScraper.search_products`.  The `platform` parameter is accepted
(with source default `"flipkart"`) but never read by the body. -/
def flipkartSearch (cache : Cache) (now : ℚ) (scrape : Scrape FItem) (query : Str)
    (price_max : ℚ) (platform : Str) : SearchOut :=
  let key := (query, price_max)
  match cacheHit cache now key with
  | some cached => ⟨cached, cache, false⟩
  | none =>
    let products :=
      match scrape with
      | .ok allItems =>
        scrapeLoop flipkartValid (fun it => flipkartExtract query price_max (it.dataId.getD []) it)
          (allItems.take 12) []
      | .fail => flipkartFallback query price_max
    let result : SearchResult :=
      { query := query
        price_max := price_max
        count := products.length
        products := products.take 6
        timestamp := some now }
    ⟨result, (key, result) :: cache, true⟩


/-- A JSON-RPC id value (the source reads it with `data.get("id", 1)`). -/
inductive JId where
  | num (n : Int)
  | text (s : Str)
deriving DecidableEq

/-- The `arguments` mapping passed to `search_products(**args)`. -/
structure SearchArgs where
  query : Option Str
  price_max : Option ℚ
  platform : Option Str
deriving DecidableEq

/-- The `params` object of a request. -/
structure MParams where
  name : Option Str
  arguments : Option SearchArgs
deriving DecidableEq

/-- A successfully parsed request body. -/
structure ReqData where
  method : Option Str
  params : Option MParams
  id : Option JId
deriving DecidableEq

/-- The raw request body: either `json.loads(body.decode())` raises (with
the exception's message), or it yields a request object. -/
inductive ReqBody where
  | malformed (errMsg : Str)
  | parsed (d : ReqData)
deriving DecidableEq

/-- The value placed under the envelope's `"result"` key.  `errorDict m`
is the dict `{"error": m}` that the unknown-method branch stores there. -/
inductive RespPayload where
  | capabilities
  | toolsList
  | searchResult (r : SearchResult)
  | errorDict (msg : Str)
deriving DecidableEq

/-- A JSON-RPC error object `{"code": ..., "message": ...}`. -/
structure ErrObj where
  code : Int
  message : Str
deriving DecidableEq

/-- The response envelope `{"jsonrpc": "2.0", "id": ..., ...}` with either
a `result` or an `error` member. -/
structure Envelope where
  id : JId
  result : Option RespPayload
  error : Option ErrObj
deriving DecidableEq

/-- What one call of `mcp_handler` does: emit exactly one SSE `data:` event
carrying an envelope, or let an exception escape to the framework. -/
inductive HandlerOutcome where
  | event (e : Envelope)
  | raised (msg : Str)
deriving DecidableEq

/-- Python `f"{m}"` for the `method` value: `None` renders as `"None"`. -/
def pyShowOpt (m : Option Str) : Str :=
  match m with
  | some s => s
  | none => "None".toList

/-- The message of the `UnboundLocalError` raised when the `except` block
reads `id_` although the parse failed before `id_ = data.get("id", 1)` ran. -/
def unboundIdMsg : Str :=
  "UnboundLocalError: cannot access local variable id_ where it is not associated with a value".toList

/-- `mcp_handler` (identical in both services up to static strings),
parameterized by the adapter call `search query price_max platform` and the
adapter's default `platform` argument.  On a malformed body the handler
itself raises: `json.loads` raises before `id_` is assigned, the `except`
block builds the error envelope from `id_`, and that read raises
`UnboundLocalError`, which nothing catches. -/
def mcpHandler (search : Str → ℚ → Str → SearchResult) (defPlat : Str)
    (body : ReqBody) : HandlerOutcome :=
  match body with
  | .malformed _ => .raised unboundIdMsg
  | .parsed d =>
    let method := d.method
    let tool_name : Str :=
      match d.params with
      | some p => p.name.getD []
      | none => []
    let id_ := d.id.getD (.num 1)
    if method = some "initialize".toList then
      .event ⟨id_, some .capabilities, none⟩
    else if method = some "tools/list".toList then
      .event ⟨id_, some .toolsList, none⟩
    else if method = some "tools/call".toList ∧ tool_name = "search_products".toList then
      match d.params with
      | none => .event ⟨id_, none, some ⟨-32603, "KeyError: params".toList⟩⟩
      | some p =>
        match p.arguments with
        | none => .event ⟨id_, none, some ⟨-32603, "KeyError: arguments".toList⟩⟩
        | some args =>
          match args.query with
          | none =>
            .event ⟨id_, none,
              some ⟨-32603, "TypeError: missing required argument query".toList⟩⟩
          | some q =>
            .event ⟨id_, some (.searchResult (search q (args.price_max.getD 40000)
              (args.platform.getD defPlat))), none⟩
    else
      .event ⟨id_, some (.errorDict ("Unknown: ".toList ++ pyShowOpt method ++
        '/' :: tool_name)), none⟩

/-- The Amazon adapter call as the gateway sees it, at a fixed cache,
clock and scrape outcome (used to state closed facts about the handler). -/
def amazonSearchAt (cache : Cache) (now : ℚ) (scrape : Scrape AItem)
    (q : Str) (pm : ℚ) (plat : Str) : SearchResult :=
  (amazonSearch cache now scrape q pm plat).result

theorem scrapeLoop_eq {α : Type} (valid : α → Bool) (extract : α → Option ProductRecord) :
    ∀ (items : List α) (acc : List ProductRecord), acc.length < 6 →
      scrapeLoop valid extract items acc =
        acc ++ (items.filterMap (fullExtract valid extract)).take (6 - acc.length) := by
  intro items
  induction items with
  | nil => intro acc h; simp [scrapeLoop]
  | cons it rest ih =>
    intro acc h
    by_cases hv : valid it
    · cases hx : extract it with
      | none =>
        have hle : ¬ 6 ≤ acc.length := by omega
        simp only [scrapeLoop, hv, if_true, hx, hle, if_false, ih acc h,
          List.filterMap_cons, fullExtract]
      | some p =>
        by_cases h6 : 6 ≤ acc.length + 1
        · have hlen : 6 - acc.length = 1 := by omega
          simp only [scrapeLoop, hv, if_true, hx, List.length_append,
            List.length_singleton, h6, List.filterMap_cons, fullExtract, hlen,
            List.take_succ_cons, List.take_zero]
        · have h' : (acc ++ [p]).length < 6 := by
            simp only [List.length_append, List.length_singleton]; omega
          have hlen : 6 - acc.length = (6 - (acc.length + 1)) + 1 := by omega
          simp only [scrapeLoop, hv, if_true, hx, List.length_append,
            List.length_singleton, h6, if_false, ih _ h', List.filterMap_cons,
            fullExtract, hlen, List.take_succ_cons, List.append_assoc,
            List.cons_append, List.nil_append]
    · simp [scrapeLoop, hv, ih acc h, List.filterMap_cons, fullExtract]

theorem scrapeLoop_nil_eq {α : Type} (valid : α → Bool)
    (extract : α → Option ProductRecord) (items : List α) :
    scrapeLoop valid extract items [] =
      (items.filterMap (fullExtract valid extract)).take 6 := by
  simpa using scrapeLoop_eq valid extract items [] (by simp)

theorem scrapeLoop_length_le {α : Type} (valid : α → Bool)
    (extract : α → Option ProductRecord) (items : List α) :
    (scrapeLoop valid extract items []).length ≤ 6 := by
  rw [scrapeLoop_nil_eq]
  exact le_trans (List.length_take_le 6 _) le_rfl

theorem amazonExtract_spec {pm : ℚ} {asin : Str} {it : AItem} {p : ProductRecord}
    (h : amazonExtract pm asin it = some p) :
    (p.price_num : ℚ) ≤ pm ∧ 0 ≤ p.price_num ∧ p.platform = "amazon".toList ∧
      p.url = "https://www.amazon.in/dp/".toList ++ asin ∧
      ∃ raw, it.nameText = some raw ∧ 5 ≤ (pyStrip raw).length ∧
        p.name = (pyStrip raw).take 80 := by
  unfold amazonExtract at h
  split at h
  · exact absurd h (by simp)
  next rawName hn =>
    simp only at h
    split at h
    · exact absurd h (by simp)
    next h5 =>
      split at h
      · exact absurd h (by simp)
      next rawPrice hp =>
        split at h
        · exact absurd h (by simp)
        next n hq =>
          split at h
          · exact absurd h (by simp)
          next hle =>
            cases h
            refine ⟨by push_cast; exact le_of_not_lt hle, by positivity, rfl, rfl,
              rawName, hn, by omega, rfl⟩

theorem flipkartNameChain_length {els : List FNameEl} {n : Str}
    (h : flipkartNameChain els = some n) : 5 < n.length := by
  induction els with
  | nil => exact absurd h (by simp [flipkartNameChain])
  | cons el rest ih =>
    unfold flipkartNameChain at h
    simp only at h
    split at h
    next ht =>
      cases h
      have := (Bool.and_eq_true _ _).mp ht
      simpa using this.2
    next ht =>
      split at h
      next ta hta =>
        split at h
        next h2 =>
          cases h
          have := (Bool.and_eq_true _ _).mp h2
          simpa using this.2
        next h2 => exact ih h
      next => exact ih h

theorem flipkartExtract_spec {q : Str} {pm : ℚ} {pid : Str} {it : FItem}
    {p : ProductRecord} (h : flipkartExtract q pm pid it = some p) :
    (p.price_num : ℚ) ≤ pm ∧ 0 ≤ p.price_num ∧ p.platform = "flipkart".toList ∧
      ∃ nm, flipkartNameChain it.nameEls = some nm ∧ 5 < nm.length ∧
        p.name = nm.take 80 := by
  unfold flipkartExtract at h
  split at h
  · exact absurd h (by simp)
  next nm hn =>
    simp only at h
    split at h
    · exact absurd h (by simp)
    next h5 =>
      split at h
      · exact absurd h (by simp)
      next n hq =>
        split at h
        · exact absurd h (by simp)
        next hle =>
          cases h
          exact ⟨by push_cast; exact le_of_not_lt hle, by positivity, rfl,
            nm, hn, flipkartNameChain_length hn, rfl⟩

theorem pyInt_le_of_nonneg {q : ℚ} (h : 0 ≤ q) : (pyInt q : ℚ) ≤ q := by
  simp only [pyInt, if_pos h]
  exact Int.floor_le q

theorem pyInt_nonneg {q : ℚ} (h : 0 ≤ q) : 0 ≤ pyInt q := by
  simp only [pyInt, if_pos h]
  exact Int.floor_nonneg.mpr h

theorem fallbackPrices_le {pm : ℚ} (h : 0 ≤ pm) :
    ((min 1500 (pyInt (pm * (3 / 5))) : ℤ) : ℚ) ≤ pm ∧
      (pyInt (((min 1500 (pyInt (pm * (3 / 5))) : ℤ) : ℚ) * (6 / 5)) : ℚ) ≤ pm := by
  have h35 : 0 ≤ pm * (3 / 5) := by positivity
  have hfloor : (pyInt (pm * (3 / 5)) : ℚ) ≤ pm * (3 / 5) := pyInt_le_of_nonneg h35
  have hminz : (min 1500 (pyInt (pm * (3 / 5))) : ℤ) ≤ pyInt (pm * (3 / 5)) :=
    min_le_right _ _
  have hbase_le : ((min 1500 (pyInt (pm * (3 / 5))) : ℤ) : ℚ) ≤ pm * (3 / 5) :=
    le_trans (by exact_mod_cast hminz) hfloor
  have hbase_nonneg : (0 : ℚ) ≤ ((min 1500 (pyInt (pm * (3 / 5))) : ℤ) : ℚ) := by
    have h0 : (0 : ℤ) ≤ min 1500 (pyInt (pm * (3 / 5))) :=
      le_min (by norm_num) (pyInt_nonneg h35)
    exact_mod_cast h0
  constructor
  · linarith
  · have h2 : 0 ≤ ((min 1500 (pyInt (pm * (3 / 5))) : ℤ) : ℚ) * (6 / 5) := by positivity
    have h3 := pyInt_le_of_nonneg h2
    nlinarith

theorem amazonFallback_spec (query : Str) {pm : ℚ} (h : 0 ≤ pm) :
    ∀ p ∈ amazonFallback query pm,
      (p.price_num : ℚ) ≤ pm ∧ p.platform = "amazon".toList := by
  intro p hp
  have hb1 := (fallbackPrices_le h).1
  have hb2 := (fallbackPrices_le h).2
  simp only [amazonFallback, List.mem_cons, List.not_mem_nil, or_false] at hp
  rcases hp with h1 | h1 <;> subst h1
  · exact ⟨hb1, rfl⟩
  · exact ⟨hb2, rfl⟩

theorem flipkartFallback_spec (query : Str) {pm : ℚ} (h : 0 ≤ pm) :
    ∀ p ∈ flipkartFallback query pm,
      (p.price_num : ℚ) ≤ pm ∧ p.platform = "flipkart".toList := by
  intro p hp
  have hb1 := (fallbackPrices_le h).1
  have hb2 := (fallbackPrices_le h).2
  simp only [flipkartFallback, List.mem_cons, List.not_mem_nil, or_false] at hp
  rcases hp with h1 | h1 <;> subst h1
  · exact ⟨hb1, rfl⟩
  · exact ⟨hb2, rfl⟩

/-- The invariants every result stored for key `(_, pm)` (and every result
returned) satisfies: its `price_max` is the key's ceiling, `count` equals
the length of `products`, at most 6 products, every product within the
(nonnegative) ceiling, and every product tagged with the adapter's fixed
platform constant. -/
def entryWF (plat : Str) (pm : ℚ) (r : SearchResult) : Prop :=
  r.price_max = pm ∧
  r.count = r.products.length ∧
  r.products.length ≤ 6 ∧
  (0 ≤ pm → ∀ p ∈ r.products, (p.price_num : ℚ) ≤ pm) ∧
  (∀ p ∈ r.products, p.platform = plat)

/-- A cache is well formed when every entry it can return is. -/
def cacheWF (plat : Str) (c : Cache) : Prop :=
  ∀ q pm r, cacheFind c (q, pm) = some r → entryWF plat pm r

theorem cacheWF_nil (plat : Str) : cacheWF plat [] := by
  intro q pm r h
  simp [cacheFind] at h

theorem cacheHit_find {cache : Cache} {now : ℚ} {key : Str × ℚ} {r : SearchResult}
    (h : cacheHit cache now key = some r) : cacheFind cache key = some r := by
  unfold cacheHit at h
  cases hf : cacheFind cache key with
  | none => rw [hf] at h; exact absurd h (by simp)
  | some cached =>
    rw [hf] at h
    simp only at h
    split at h
    · cases h; rfl
    · exact absurd h (by simp)

theorem amazonLoopProducts_spec (pm : ℚ) (items : List AItem) :
    ∀ p ∈ scrapeLoop amazonValid (fun it => amazonExtract pm (it.dataAsin.getD []) it)
        items [],
      (p.price_num : ℚ) ≤ pm ∧ p.platform = "amazon".toList := by
  intro p hp
  rw [scrapeLoop_nil_eq] at hp
  have hp' := List.take_subset 6 _ hp
  obtain ⟨it, -, hx⟩ := List.mem_filterMap.mp hp'
  unfold fullExtract at hx
  split at hx
  · obtain ⟨h1, -, h3, -⟩ := amazonExtract_spec hx
    exact ⟨h1, h3⟩
  · exact absurd hx (by simp)

theorem flipkartLoopProducts_spec (query : Str) (pm : ℚ) (items : List FItem) :
    ∀ p ∈ scrapeLoop flipkartValid
        (fun it => flipkartExtract query pm (it.dataId.getD []) it) items [],
      (p.price_num : ℚ) ≤ pm ∧ p.platform = "flipkart".toList := by
  intro p hp
  rw [scrapeLoop_nil_eq] at hp
  have hp' := List.take_subset 6 _ hp
  obtain ⟨it, -, hx⟩ := List.mem_filterMap.mp hp'
  unfold fullExtract at hx
  split at hx
  · obtain ⟨h1, -, h3, -⟩ := flipkartExtract_spec hx
    exact ⟨h1, h3⟩
  · exact absurd hx (by simp)

theorem amazonSearch_wf {cache : Cache} (now : ℚ) (scrape : Scrape AItem)
    (query : Str) (pm : ℚ) (plat : Str) (hc : cacheWF "amazon".toList cache) :
    entryWF "amazon".toList pm (amazonSearch cache now scrape query pm plat).result ∧
      cacheWF "amazon".toList (amazonSearch cache now scrape query pm plat).cache := by
  unfold amazonSearch
  cases hh : cacheHit cache now (query, pm) with
  | some cached =>
    simp only [hh]
    exact ⟨hc query pm cached (cacheHit_find hh), hc⟩
  | none =>
    simp only [hh]
    have hprod : ∀ (products : List ProductRecord),
        products.length ≤ 6 →
        (0 ≤ pm → ∀ p ∈ products, (p.price_num : ℚ) ≤ pm) →
        (∀ p ∈ products, p.platform = "amazon".toList) →
        entryWF "amazon".toList pm
          { query := query, price_max := pm, count := products.length,
            products := products.take 6, timestamp := some now } ∧
        cacheWF "amazon".toList
          (((query, pm),
            ({ query := query, price_max := pm, count := products.length,
               products := products.take 6, timestamp := some now } : SearchResult))
            :: cache) := by
      intro products hlen hle hplat
      have htake : products.take 6 = products := List.take_of_length_le hlen
      have hwf : entryWF "amazon".toList pm
          { query := query, price_max := pm, count := products.length,
            products := products.take 6, timestamp := some now } := by
        refine ⟨rfl, ?_, ?_, ?_, ?_⟩
        · simp [htake]
        · simp [htake, hlen]
        · intro h0 p hp; exact hle h0 p (by simpa [htake] using hp)
        · intro p hp; exact hplat p (by simpa [htake] using hp)
      refine ⟨hwf, ?_⟩
      intro q' pm' r hr
      unfold cacheFind at hr
      split at hr
      next heq =>
        cases hr
        have : pm' = pm := congrArg Prod.snd heq
        subst this
        exact hwf
      next => exact hc q' pm' r hr
    cases scrape with
    | fail =>
      refine hprod (amazonFallback query pm) (by simp [amazonFallback]) ?_ ?_
      · intro h0 p hp; exact (amazonFallback_spec query h0 p hp).1
      · intro p hp
        simp only [amazonFallback, List.mem_cons, List.not_mem_nil, or_false] at hp
        rcases hp with h1 | h1 <;> subst h1 <;> rfl
    | ok allItems =>
      refine hprod _ (scrapeLoop_length_le _ _ _) ?_ ?_
      · intro h0 p hp; exact (amazonLoopProducts_spec pm _ p hp).1
      · intro p hp; exact (amazonLoopProducts_spec pm _ p hp).2

theorem flipkartSearch_wf {cache : Cache} (now : ℚ) (scrape : Scrape FItem)
    (query : Str) (pm : ℚ) (plat : Str) (hc : cacheWF "flipkart".toList cache) :
    entryWF "flipkart".toList pm (flipkartSearch cache now scrape query pm plat).result ∧
      cacheWF "flipkart".toList (flipkartSearch cache now scrape query pm plat).cache := by
  unfold flipkartSearch
  cases hh : cacheHit cache now (query, pm) with
  | some cached =>
    simp only [hh]
    exact ⟨hc query pm cached (cacheHit_find hh), hc⟩
  | none =>
    simp only [hh]
    have hprod : ∀ (products : List ProductRecord),
        products.length ≤ 6 →
        (0 ≤ pm → ∀ p ∈ products, (p.price_num : ℚ) ≤ pm) →
        (∀ p ∈ products, p.platform = "flipkart".toList) →
        entryWF "flipkart".toList pm
          { query := query, price_max := pm, count := products.length,
            products := products.take 6, timestamp := some now } ∧
        cacheWF "flipkart".toList
          (((query, pm),
            ({ query := query, price_max := pm, count := products.length,
               products := products.take 6, timestamp := some now } : SearchResult))
            :: cache) := by
      intro products hlen hle hplat
      have htake : products.take 6 = products := List.take_of_length_le hlen
      have hwf : entryWF "flipkart".toList pm
          { query := query, price_max := pm, count := products.length,
            products := products.take 6, timestamp := some now } := by
        refine ⟨rfl, ?_, ?_, ?_, ?_⟩
        · simp [htake]
        · simp [htake, hlen]
        · intro h0 p hp; exact hle h0 p (by simpa [htake] using hp)
        · intro p hp; exact hplat p (by simpa [htake] using hp)
      refine ⟨hwf, ?_⟩
      intro q' pm' r hr
      unfold cacheFind at hr
      split at hr
      next heq =>
        cases hr
        have : pm' = pm := congrArg Prod.snd heq
        subst this
        exact hwf
      next => exact hc q' pm' r hr
    cases scrape with
    | fail =>
      refine hprod (flipkartFallback query pm) (by simp [flipkartFallback]) ?_ ?_
      · intro h0 p hp; exact (flipkartFallback_spec query h0 p hp).1
      · intro p hp
        simp only [flipkartFallback, List.mem_cons, List.not_mem_nil, or_false] at hp
        rcases hp with h1 | h1 <;> subst h1 <;> rfl
    | ok allItems =>
      refine hprod _ (scrapeLoop_length_le _ _ _) ?_ ?_
      · intro h0 p hp; exact (flipkartLoopProducts_spec query pm _ p hp).1
      · intro p hp; exact (flipkartLoopProducts_spec query pm _ p hp).2

theorem cacheHit_of_fresh {cache : Cache} {now : ℚ} {key : Str × ℚ} {e : SearchResult}
    (hfind : cacheFind cache key = some e) (h : now - e.timestamp.getD 0 < 300) :
    cacheHit cache now key = some e := by
  unfold cacheHit
  rw [hfind]
  simp only
  rw [if_pos h]

theorem cacheHit_of_stale {cache : Cache} {now : ℚ} {key : Str × ℚ} {e : SearchResult}
    (hfind : cacheFind cache key = some e) (h : ¬ now - e.timestamp.getD 0 < 300) :
    cacheHit cache now key = none := by
  unfold cacheHit
  rw [hfind]
  simp only
  rw [if_neg h]

theorem amazonSearch_hit {cache : Cache} {now : ℚ} {scrape : Scrape AItem} {query : Str}
    {pm : ℚ} {plat : Str} {e : SearchResult}
    (hh : cacheHit cache now (query, pm) = some e) :
    amazonSearch cache now scrape query pm plat = ⟨e, cache, false⟩ := by
  simp only [amazonSearch]
  rw [hh]

theorem amazonSearch_miss {cache : Cache} {now : ℚ} {scrape : Scrape AItem} {query : Str}
    {pm : ℚ} {plat : Str} (hh : cacheHit cache now (query, pm) = none) :
    (amazonSearch cache now scrape query pm plat).fetched = true ∧
      (amazonSearch cache now scrape query pm plat).result.timestamp = some now := by
  simp only [amazonSearch]
  rw [hh]
  exact ⟨rfl, rfl⟩

/-- C5: a `search_products` call finding a cache entry for `(query, price_max)`
whose timestamp is less than 300 seconds old returns exactly the stored
result (same products, count and timestamp), leaves the cache unchanged
and performs no fetch; an entry aged 300 seconds or more triggers a fresh
fetch (the returned timestamp is the current time); an entry whose
timestamp is missing reads as age `now - 0`, so it is a miss and a fresh
fetch is performed (wall-clock time is at least 300 seconds past epoch). -/
theorem C5_cache_ttl (cache : Cache) (now : ℚ) (scrape : Scrape AItem) (query : Str)
    (pm : ℚ) (plat : Str) (e : SearchResult)
    (hfind : cacheFind cache (query, pm) = some e) :
    (now - e.timestamp.getD 0 < 300 →
      amazonSearch cache now scrape query pm plat = ⟨e, cache, false⟩) ∧
    (300 ≤ now - e.timestamp.getD 0 →
      (amazonSearch cache now scrape query pm plat).fetched = true ∧
      (amazonSearch cache now scrape query pm plat).result.timestamp = some now) ∧
    (e.timestamp = none → 300 ≤ now →
      (amazonSearch cache now scrape query pm plat).fetched = true) := by
  refine ⟨?_, ?_, ?_⟩
  · intro h
    exact amazonSearch_hit (cacheHit_of_fresh hfind h)
  · intro h
    exact amazonSearch_miss (cacheHit_of_stale hfind (not_lt.mpr h))
  · intro hts h
    refine (amazonSearch_miss (cacheHit_of_stale hfind ?_)).1
    rw [hts]
    simpa using not_lt.mpr h

/-- Witness for C5 at concrete inputs: a 100-second-old entry is a hit
returned verbatim with no fetch; the same entry read 400 seconds after its
timestamp triggers a fetch; an entry with no timestamp triggers a fetch. -/
theorem C5_cache_ttl_witness :
    (amazonSearch [(("q".toList, 100), ⟨"q".toList, 100, 0, [], some 700⟩)] 800 .fail
        "q".toList 100 "amazon".toList =
      ⟨⟨"q".toList, 100, 0, [], some 700⟩,
        [(("q".toList, 100), ⟨"q".toList, 100, 0, [], some 700⟩)], false⟩) ∧
    ((amazonSearch [(("q".toList, 100), ⟨"q".toList, 100, 0, [], some 700⟩)] 1100 .fail
        "q".toList 100 "amazon".toList).fetched = true) ∧
    ((amazonSearch [(("q".toList, 100), ⟨"q".toList, 100, 0, [], none⟩)] 800 .fail
        "q".toList 100 "amazon".toList).fetched = true) :=
  ⟨(C5_cache_ttl [(("q".toList, 100), ⟨"q".toList, 100, 0, [], some 700⟩)] 800 .fail
      "q".toList 100 "amazon".toList ⟨"q".toList, 100, 0, [], some 700⟩ rfl).1
      (by norm_num),
   ((C5_cache_ttl [(("q".toList, 100), ⟨"q".toList, 100, 0, [], some 700⟩)] 1100 .fail
      "q".toList 100 "amazon".toList ⟨"q".toList, 100, 0, [], some 700⟩ rfl).2.1
      (by norm_num)).1,
   (C5_cache_ttl [(("q".toList, 100), ⟨"q".toList, 100, 0, [], none⟩)] 800 .fail
      "q".toList 100 "amazon".toList ⟨"q".toList, 100, 0, [], none⟩ rfl).2.2 rfl
      (by norm_num)⟩

/-- C1 (amended): for every nonnegative price ceiling, every product of
every result returned by either adapter's `search_products` (scraped,
fallback or cached path, with a cache the adapter itself populated)
satisfies `price_num ≤ price_max`.  For negative ceilings the fallback
records violate the bound (see the counterexample). -/
theorem C1_price_ceiling (cacheA cacheF : Cache) (now : ℚ) (scrA : Scrape AItem)
    (scrF : Scrape FItem) (query : Str) (pm : ℚ) (plat : Str)
    (hA : cacheWF "amazon".toList cacheA) (hF : cacheWF "flipkart".toList cacheF)
    (hpm : 0 ≤ pm) :
    (∀ p ∈ (amazonSearch cacheA now scrA query pm plat).result.products,
      (p.price_num : ℚ) ≤ (amazonSearch cacheA now scrA query pm plat).result.price_max) ∧
    (∀ p ∈ (flipkartSearch cacheF now scrF query pm plat).result.products,
      (p.price_num : ℚ) ≤ (flipkartSearch cacheF now scrF query pm plat).result.price_max) := by
  obtain ⟨⟨hmaxA, -, -, hleA, -⟩, -⟩ := amazonSearch_wf now scrA query pm plat hA
  obtain ⟨⟨hmaxF, -, -, hleF, -⟩, -⟩ := flipkartSearch_wf now scrF query pm plat hF
  constructor
  · intro p hp
    rw [hmaxA]
    exact hleA hpm p hp
  · intro p hp
    rw [hmaxF]
    exact hleF hpm p hp

/-- Witness for C1 at a concrete input: empty caches, failing scrape,
ceiling 2000. -/
theorem C1_price_ceiling_witness :
    (∀ p ∈ (amazonSearch [] 1000 .fail "cricket bat".toList 2000
        "amazon".toList).result.products,
      (p.price_num : ℚ) ≤ (amazonSearch [] 1000 .fail "cricket bat".toList 2000
        "amazon".toList).result.price_max) ∧
    (∀ p ∈ (flipkartSearch [] 1000 .fail "cricket bat".toList 2000
        "flipkart".toList).result.products,
      (p.price_num : ℚ) ≤ (flipkartSearch [] 1000 .fail "cricket bat".toList 2000
        "flipkart".toList).result.price_max) :=
  C1_price_ceiling [] [] 1000 .fail .fail "cricket bat".toList 2000 "amazon".toList
    (cacheWF_nil _) (cacheWF_nil _) (by norm_num)

/-- Counterexample to C1 as stated: with the (admittedly unusual) ceiling
`-10` passed to the call and a failing scrape, the fallback records have
prices `-6` and `-7`, and `-6 ≤ -10` is false, so a returned product
exceeds the ceiling. -/
theorem C1_counterexample :
    ((amazonSearch [] 1000 .fail "pen".toList (-10) "amazon".toList).result.products.map
        (fun p => p.price_num)) = [-6, -7] ∧
      (amazonSearch [] 1000 .fail "pen".toList (-10) "amazon".toList).result.price_max = -10 ∧
      ¬ ((-6 : ℚ) ≤ -10) := by
  have hb : pyInt ((-10 : ℚ) * (3 / 5)) = -6 := by
    have : ((-10 : ℚ) * (3 / 5)) = -6 := by norm_num
    rw [pyInt, this, if_neg (by norm_num)]
    exact Int.ceil_eq_iff.mpr (by norm_num)
  have hmin : min (1500 : ℤ) (-6) = -6 := by decide
  have hb2 : pyInt (((-6 : ℤ) : ℚ) * (6 / 5)) = -7 := by
    have : (((-6 : ℤ) : ℚ) * (6 / 5)) = -36 / 5 := by norm_num
    rw [pyInt, this, if_neg (by norm_num)]
    exact Int.ceil_eq_iff.mpr (by norm_num)
  refine ⟨?_, ?_, by norm_num⟩
  · simp only [amazonSearch, cacheHit, cacheFind, amazonFallback, hb, hmin, hb2]
    rfl
  · rfl

/-- C2: for every result returned by either adapter's `search_products`
(with a cache the adapter itself populated), `count` equals the length of
`products` and there are at most 6 products; and on a fresh scrape the
products are exactly the first 6 successfully extracted records of the
first 12 candidate items, in discovery order. -/
theorem C2_count_invariant (cacheA cacheF : Cache) (now : ℚ) (scrA : Scrape AItem)
    (scrF : Scrape FItem) (query : Str) (pm : ℚ) (plat : Str)
    (hA : cacheWF "amazon".toList cacheA) (hF : cacheWF "flipkart".toList cacheF) :
    ((amazonSearch cacheA now scrA query pm plat).result.count =
        (amazonSearch cacheA now scrA query pm plat).result.products.length ∧
      (amazonSearch cacheA now scrA query pm plat).result.products.length ≤ 6) ∧
    ((flipkartSearch cacheF now scrF query pm plat).result.count =
        (flipkartSearch cacheF now scrF query pm plat).result.products.length ∧
      (flipkartSearch cacheF now scrF query pm plat).result.products.length ≤ 6) ∧
    (∀ items, scrA = .ok items → cacheHit cacheA now (query, pm) = none →
      (amazonSearch cacheA now scrA query pm plat).result.products =
        ((items.take 12).filterMap (fullExtract amazonValid
          (fun it => amazonExtract pm (it.dataAsin.getD []) it))).take 6) ∧
    (∀ items, scrF = .ok items → cacheHit cacheF now (query, pm) = none →
      (flipkartSearch cacheF now scrF query pm plat).result.products =
        ((items.take 12).filterMap (fullExtract flipkartValid
          (fun it => flipkartExtract query pm (it.dataId.getD []) it))).take 6) := by
  obtain ⟨⟨-, hcntA, hlenA, -, -⟩, -⟩ := amazonSearch_wf now scrA query pm plat hA
  obtain ⟨⟨-, hcntF, hlenF, -, -⟩, -⟩ := flipkartSearch_wf now scrF query pm plat hF
  refine ⟨⟨hcntA, hlenA⟩, ⟨hcntF, hlenF⟩, ?_, ?_⟩
  · intro items hs hmiss
    subst hs
    simp only [amazonSearch]
    rw [hmiss]
    simp only [scrapeLoop_nil_eq, List.take_take, min_self]
  · intro items hs hmiss
    subst hs
    simp only [flipkartSearch]
    rw [hmiss]
    simp only [scrapeLoop_nil_eq, List.take_take, min_self]

/-- Witness for C2 at a concrete input: one valid Amazon item and one valid
Flipkart item, empty caches. -/
theorem C2_count_invariant_witness :
    ((amazonSearch [] 1000 (.ok [⟨some "B012345678".toList, some "nice pen set".toList,
          some "₹99".toList⟩]) "pen".toList 2000 "amazon".toList).result.count =
        (amazonSearch [] 1000 (.ok [⟨some "B012345678".toList, some "nice pen set".toList,
          some "₹99".toList⟩]) "pen".toList 2000 "amazon".toList).result.products.length ∧
      (amazonSearch [] 1000 (.ok [⟨some "B012345678".toList, some "nice pen set".toList,
          some "₹99".toList⟩]) "pen".toList 2000
          "amazon".toList).result.products.length ≤ 6) ∧
    (amazonSearch [] 1000 (.ok [⟨some "B012345678".toList, some "nice pen set".toList,
        some "₹99".toList⟩]) "pen".toList 2000 "amazon".toList).result.products =
      (([⟨some "B012345678".toList, some "nice pen set".toList,
          some "₹99".toList⟩].take 12).filterMap (fullExtract amazonValid
          (fun it => amazonExtract 2000 (it.dataAsin.getD []) it))).take 6 :=
  ⟨(C2_count_invariant [] [] 1000 (.ok [⟨some "B012345678".toList,
      some "nice pen set".toList, some "₹99".toList⟩]) .fail "pen".toList 2000
      "amazon".toList (cacheWF_nil _) (cacheWF_nil _)).1,
   (C2_count_invariant [] [] 1000 (.ok [⟨some "B012345678".toList,
      some "nice pen set".toList, some "₹99".toList⟩]) .fail "pen".toList 2000
      "amazon".toList (cacheWF_nil _) (cacheWF_nil _)).2.2.1 _ rfl rfl⟩

/-- C6 (amended): when the browser path fails at any stage and the cache
misses, `search_products` still returns (never raising) exactly the 2
synthesized records titled `query.title()` plus " - Best Value" and
" - Top Rated", with base price `min(1500, int(price_ceiling * 0.6))` (the
claim's plain 60% fraction holds only below the 1500 cap) and a 20%-higher
variant, and URLs pointing at the platform's generic search page. -/
theorem C6_fallback_records (cacheA cacheF : Cache) (now : ℚ) (query : Str) (pm : ℚ)
    (plat : Str) (hA : cacheHit cacheA now (query, pm) = none)
    (hF : cacheHit cacheF now (query, pm) = none) :
    (amazonSearch cacheA now .fail query pm plat).result.products =
      [ { name := pyTitle query ++ " - Best Value".toList
          price := '₹' :: pyComma (min 1500 (pyInt (pm * (3 / 5))))
          price_num := min 1500 (pyInt (pm * (3 / 5)))
          url := "https://www.amazon.in/s?k=".toList ++ replaceChar ' ' "+".toList query
          source_id := none
          platform := "amazon".toList },
        { name := pyTitle query ++ " - Top Rated".toList
          price := '₹' :: pyComma (pyInt (((min 1500 (pyInt (pm * (3 / 5))) : ℤ) : ℚ) * (6 / 5)))
          price_num := pyInt (((min 1500 (pyInt (pm * (3 / 5))) : ℤ) : ℚ) * (6 / 5))
          url := "https://www.amazon.in/s?k=".toList ++ query ++ "+bestseller".toList
          source_id := none
          platform := "amazon".toList } ] ∧
    (flipkartSearch cacheF now .fail query pm plat).result.products =
      [ { name := pyTitle query ++ " - Best Value".toList
          price := '₹' :: pyComma (min 1500 (pyInt (pm * (3 / 5))))
          price_num := min 1500 (pyInt (pm * (3 / 5)))
          url := "https://www.flipkart.com/search?q=".toList ++
            replaceChar ' ' "%20".toList query
          source_id := none
          platform := "flipkart".toList },
        { name := pyTitle query ++ " - Top Rated".toList
          price := '₹' :: pyComma (pyInt (((min 1500 (pyInt (pm * (3 / 5))) : ℤ) : ℚ) * (6 / 5)))
          price_num := pyInt (((min 1500 (pyInt (pm * (3 / 5))) : ℤ) : ℚ) * (6 / 5))
          url := "https://www.flipkart.com/search?q=".toList ++ query ++ "+bestseller".toList
          source_id := none
          platform := "flipkart".toList } ] := by
  constructor
  · simp only [amazonSearch]
    rw [hA]
    rfl
  · simp only [flipkartSearch]
    rw [hF]
    rfl

/-- Witness for C6 at a concrete input: empty caches, query "cricket bat",
ceiling 2000. -/
theorem C6_fallback_records_witness :
    (amazonSearch [] 1000 .fail "cricket bat".toList 2000 "amazon".toList).result.products =
      [ { name := pyTitle "cricket bat".toList ++ " - Best Value".toList
          price := '₹' :: pyComma (min 1500 (pyInt ((2000 : ℚ) * (3 / 5))))
          price_num := min 1500 (pyInt ((2000 : ℚ) * (3 / 5)))
          url := "https://www.amazon.in/s?k=".toList ++
            replaceChar ' ' "+".toList "cricket bat".toList
          source_id := none
          platform := "amazon".toList },
        { name := pyTitle "cricket bat".toList ++ " - Top Rated".toList
          price := '₹' :: pyComma (pyInt (((min 1500 (pyInt ((2000 : ℚ) * (3 / 5))) : ℤ) : ℚ) * (6 / 5)))
          price_num := pyInt (((min 1500 (pyInt ((2000 : ℚ) * (3 / 5))) : ℤ) : ℚ) * (6 / 5))
          url := "https://www.amazon.in/s?k=".toList ++ "cricket bat".toList ++
            "+bestseller".toList
          source_id := none
          platform := "amazon".toList } ] :=
  (C6_fallback_records [] [] 1000 "cricket bat".toList 2000 "amazon".toList rfl rfl).1

/-- Counterexample to C6 as stated: at the default ceiling 40000 the first
fallback price is the capped 1500, not the fixed 60% fraction 24000 of the
ceiling the claim describes. -/
theorem C6_counterexample :
    ((amazonSearch [] 1000 .fail "cricket bat".toList 40000 "amazon".toList).result.products.map
        (fun p => p.price_num)) = [1500, 1800] ∧
      pyInt ((40000 : ℚ) * (3 / 5)) = 24000 ∧ (1500 : ℤ) ≠ 24000 := by
  have hb : pyInt ((40000 : ℚ) * (3 / 5)) = 24000 := by
    have : ((40000 : ℚ) * (3 / 5)) = 24000 := by norm_num
    rw [pyInt, this, if_pos (by norm_num)]
    exact Int.floor_eq_iff.mpr (by norm_num)
  have hmin : min (1500 : ℤ) 24000 = 1500 := by decide
  have hb2 : pyInt (((1500 : ℤ) : ℚ) * (6 / 5)) = 1800 := by
    have : (((1500 : ℤ) : ℚ) * (6 / 5)) = 1800 := by norm_num
    rw [pyInt, this, if_pos (by norm_num)]
    exact Int.floor_eq_iff.mpr (by norm_num)
  refine ⟨?_, hb, by norm_num⟩
  simp only [amazonSearch, cacheHit, cacheFind, amazonFallback, hb, hmin, hb2]
  rfl

/-- C10: the `platform` argument of `search_products` has no effect on the
returned result for either adapter, and every returned record's `platform`
field is the adapter's fixed constant (with a cache the adapter itself
populated), regardless of the caller-supplied platform value. -/
theorem C10_platform_inert (cacheA cacheF : Cache) (now : ℚ) (scrA : Scrape AItem)
    (scrF : Scrape FItem) (query : Str) (pm : ℚ) (p1 p2 : Str)
    (hA : cacheWF "amazon".toList cacheA) (hF : cacheWF "flipkart".toList cacheF) :
    amazonSearch cacheA now scrA query pm p1 = amazonSearch cacheA now scrA query pm p2 ∧
    flipkartSearch cacheF now scrF query pm p1 = flipkartSearch cacheF now scrF query pm p2 ∧
    (∀ p ∈ (amazonSearch cacheA now scrA query pm p1).result.products,
      p.platform = "amazon".toList) ∧
    (∀ p ∈ (flipkartSearch cacheF now scrF query pm p1).result.products,
      p.platform = "flipkart".toList) :=
  ⟨rfl, rfl, (amazonSearch_wf now scrA query pm p1 hA).1.2.2.2.2,
    (flipkartSearch_wf now scrF query pm p1 hF).1.2.2.2.2⟩

/-- Witness for C10 at a concrete input: the Amazon adapter called with the
caller-supplied platform "flipkart" still ignores it and tags records
"amazon", and symmetrically. -/
theorem C10_platform_inert_witness :
    amazonSearch [] 1000 .fail "pen".toList 2000 "flipkart".toList =
      amazonSearch [] 1000 .fail "pen".toList 2000 "other".toList ∧
    flipkartSearch [] 1000 .fail "pen".toList 2000 "flipkart".toList =
      flipkartSearch [] 1000 .fail "pen".toList 2000 "other".toList ∧
    (∀ p ∈ (amazonSearch [] 1000 .fail "pen".toList 2000 "flipkart".toList).result.products,
      p.platform = "amazon".toList) ∧
    (∀ p ∈ (flipkartSearch [] 1000 .fail "pen".toList 2000 "flipkart".toList).result.products,
      p.platform = "flipkart".toList) :=
  C10_platform_inert [] [] 1000 .fail .fail "pen".toList 2000 "flipkart".toList
    "other".toList (cacheWF_nil _) (cacheWF_nil _)

/-- C7 (amended): a scraped candidate's name is accepted by the Amazon
extractor only if its trimmed length is at least 5 (a 5-character name is
accepted, see the counterexample) and by the Flipkart name chain only if
its length is greater than 5; the stored name is truncated to at most 80
characters. -/
theorem C7_name_rules :
    (∀ (pm : ℚ) (asin : Str) (it : AItem) (r : ProductRecord),
        amazonExtract pm asin it = some r →
        ∃ raw, it.nameText = some raw ∧ 5 ≤ (pyStrip raw).length ∧
          r.name = (pyStrip raw).take 80 ∧ r.name.length ≤ 80) ∧
    (∀ (q : Str) (pm : ℚ) (pid : Str) (it : FItem) (r : ProductRecord),
        flipkartExtract q pm pid it = some r →
        ∃ nm, flipkartNameChain it.nameEls = some nm ∧ 5 < nm.length ∧
          r.name = nm.take 80 ∧ r.name.length ≤ 80) := by
  constructor
  · intro pm asin it r h
    obtain ⟨-, -, -, -, raw, h1, h2, h3⟩ := amazonExtract_spec h
    exact ⟨raw, h1, h2, h3, by rw [h3]; simp [List.length_take_le]⟩
  · intro q pm pid it r h
    obtain ⟨-, -, -, nm, h1, h2, h3⟩ := flipkartExtract_spec h
    exact ⟨nm, h1, h2, h3, by rw [h3]; simp [List.length_take_le]⟩

/-- Witness for C7 at concrete accepted candidates of both adapters. -/
theorem C7_name_rules_witness :
    (∃ raw, (⟨some "B012345678".toList, some "abcdef".toList,
        some "₹99".toList⟩ : AItem).nameText = some raw ∧
      5 ≤ (pyStrip raw).length ∧
      ({ name := "abcdef".toList, price := '₹' :: pyComma 99, price_num := (99 : Int),
         url := "https://www.amazon.in/dp/B012345678".toList,
         source_id := some "B012345678".toList,
         platform := "amazon".toList } : ProductRecord).name = (pyStrip raw).take 80 ∧
      ({ name := "abcdef".toList, price := '₹' :: pyComma 99, price_num := (99 : Int),
         url := "https://www.amazon.in/dp/B012345678".toList,
         source_id := some "B012345678".toList,
         platform := "amazon".toList } : ProductRecord).name.length ≤ 80) ∧
    (∃ nm, flipkartNameChain (⟨some "XYZ12".toList, [⟨"Nice Widget".toList, none⟩],
        ["₹999".toList], [], [some "/x/p/y?pid=Z".toList]⟩ : FItem).nameEls = some nm ∧
      5 < nm.length ∧
      ({ name := "Nice Widget".toList, price := '₹' :: pyComma 999, price_num := (999 : Int),
         url := "https://www.flipkart.com/x/p/y".toList,
         source_id := some "XYZ12".toList,
         platform := "flipkart".toList } : ProductRecord).name = nm.take 80 ∧
      ({ name := "Nice Widget".toList, price := '₹' :: pyComma 999, price_num := (999 : Int),
         url := "https://www.flipkart.com/x/p/y".toList,
         source_id := some "XYZ12".toList,
         platform := "flipkart".toList } : ProductRecord).name.length ≤ 80) :=
  ⟨C7_name_rules.1 1000 "B012345678".toList _ _ (by decide),
   C7_name_rules.2 "cam".toList 1000 "XYZ12".toList _ _ (by decide)⟩

/-- Counterexample to C7 as stated: the Amazon extractor accepts a trimmed
name of length exactly 5, which is not greater than 5. -/
theorem C7_counterexample :
    (amazonExtract 1000 "B012345678".toList
        ⟨some "B012345678".toList, some "abcde".toList, some "₹99".toList⟩).isSome = true ∧
      (pyStrip "abcde".toList).length = 5 ∧ ¬ (5 : Nat) > 5 := by
  refine ⟨by decide, by decide, by norm_num⟩

/-- C8 (amended): the Flipkart price parse strips the currency symbol,
thousands separators and spaces and then takes the first maximal digit run,
so `"₹1,299.00"` yields 1299; the Amazon price parse additionally strips
the decimal point before taking the digit run, so the same text yields
129900 there (the paise digits are concatenated onto the rupee digits). -/
theorem C8_price_normalization :
    flipkartPriceParse "₹1,299.00".toList = some 1299 ∧
    flipkartPriceParse " ₹ 12,499 ".toList = some 12499 ∧
    amazonPriceParse "₹1,299.00".toList = some 129900 ∧
    amazonPriceParse " 1,299 ".toList = some 1299 :=
  ⟨by decide, by decide, by decide, by decide⟩

/-- Counterexample to C8 as stated: the Amazon adapter's normalization of
`"₹1,299.00"` parses to 129900, not the 1299 the claim requires. -/
theorem C8_counterexample :
    amazonPriceParse "₹1,299.00".toList = some 129900 ∧ (129900 : Nat) ≠ 1299 :=
  ⟨by decide, by decide⟩

theorem flipkartUrlLoop_spec (links : List (Option Str)) :
    flipkartUrlLoop links = none ∨
    ∃ href, some href ∈ links ∧
      (strContains "/p/".toList href || strContains "pid=".toList href) = true ∧
      (flipkartUrlLoop links = some (href.takeWhile (fun c => !(c == '?'))) ∨
        flipkartUrlLoop links =
          some ("https://www.flipkart.com".toList ++ href.takeWhile (fun c => !(c == '?')))) := by
  induction links with
  | nil => left; rfl
  | cons href? rest ih =>
    have lift : flipkartUrlLoop (href? :: rest) = flipkartUrlLoop rest →
        (flipkartUrlLoop (href? :: rest) = none ∨
          ∃ href, some href ∈ href? :: rest ∧
            (strContains "/p/".toList href || strContains "pid=".toList href) = true ∧
            (flipkartUrlLoop (href? :: rest) = some (href.takeWhile (fun c => !(c == '?'))) ∨
              flipkartUrlLoop (href? :: rest) =
                some ("https://www.flipkart.com".toList ++
                  href.takeWhile (fun c => !(c == '?'))))) := by
      intro hstep
      rw [hstep]
      rcases ih with h | ⟨href, hmem, hmark, hcase⟩
      · exact Or.inl h
      · exact Or.inr ⟨href, List.mem_cons_of_mem _ hmem, hmark, hcase⟩
    cases href? with
    | none => exact lift rfl
    | some href =>
      by_cases hemp : href.isEmpty
      · refine lift ?_
        simp only [flipkartUrlLoop]
        rw [if_pos hemp]
      · by_cases hmark : (strContains "/p/".toList href || strContains "pid=".toList href) = true
        · by_cases hhttp : "http".toList.isPrefixOf href
          · refine Or.inr ⟨href, List.mem_cons_self _ _, hmark, Or.inl ?_⟩
            simp only [flipkartUrlLoop]
            rw [if_neg hemp, if_pos hmark, if_pos hhttp]
          · by_cases hslash : "/".toList.isPrefixOf href
            · refine Or.inr ⟨href, List.mem_cons_self _ _, hmark, Or.inr ?_⟩
              simp only [flipkartUrlLoop]
              rw [if_neg hemp, if_pos hmark, if_neg hhttp, if_pos hslash]
            · refine lift ?_
              simp only [flipkartUrlLoop]
              rw [if_neg hemp, if_pos hmark, if_neg hhttp, if_neg hslash]
        · refine lift ?_
          simp only [flipkartUrlLoop]
          rw [if_neg hemp, if_neg hmark]

/-- C9 (amended): a Flipkart record's URL is either the direct URL built
from an `href` carrying a `/p/` path marker or a `pid=` query parameter
(absolute links kept, relative ones resolved against the Flipkart origin,
and the entire trailing query string stripped, including the identifying
`pid=` parameter itself), or else it degrades to the platform search URL
parameterized by the item's `data-id`; an Amazon record's URL is always
the direct product URL built from the ASIN. -/
theorem C9_url_resolution :
    (∀ (links : List (Option Str)) (query pid : Str),
      flipkartChooseUrl links query pid =
        "https://www.flipkart.com/search?q=".toList ++ replaceChar ' ' "%20".toList query ++
          "&pid=".toList ++ pid ∨
      ∃ href, some href ∈ links ∧
        (strContains "/p/".toList href || strContains "pid=".toList href) = true ∧
        (flipkartChooseUrl links query pid = href.takeWhile (fun c => !(c == '?')) ∨
          flipkartChooseUrl links query pid =
            "https://www.flipkart.com".toList ++ href.takeWhile (fun c => !(c == '?')))) ∧
    (∀ (pm : ℚ) (asin : Str) (it : AItem) (r : ProductRecord),
      amazonExtract pm asin it = some r →
      r.url = "https://www.amazon.in/dp/".toList ++ asin) := by
  constructor
  · intro links query pid
    rcases flipkartUrlLoop_spec links with h | ⟨href, hmem, hmark, hcase⟩
    · left
      unfold flipkartChooseUrl
      rw [h]
    · rcases hcase with heq | heq
      · by_cases hsr : strContains "/search".toList
            (href.takeWhile (fun c => !(c == '?'))) = true
        · left
          unfold flipkartChooseUrl
          rw [heq]
          simp only
          rw [if_pos hsr]
        · right
          refine ⟨href, hmem, hmark, Or.inl ?_⟩
          unfold flipkartChooseUrl
          rw [heq]
          simp only
          rw [if_neg hsr]
      · by_cases hsr : strContains "/search".toList
            ("https://www.flipkart.com".toList ++ href.takeWhile (fun c => !(c == '?'))) = true
        · left
          unfold flipkartChooseUrl
          rw [heq]
          simp only
          rw [if_pos hsr]
        · right
          refine ⟨href, hmem, hmark, Or.inr ?_⟩
          unfold flipkartChooseUrl
          rw [heq]
          simp only
          rw [if_neg hsr]
  · intro pm asin it r h
    exact (amazonExtract_spec h).2.2.2.1

/-- Witness for C9: a concrete link list resolving to a direct product URL
and a concrete accepted Amazon candidate. -/
theorem C9_url_resolution_witness :
    (flipkartChooseUrl [some "/x/p/y?pid=Z".toList] "cam".toList "XYZ12".toList =
        "https://www.flipkart.com/search?q=".toList ++
          replaceChar ' ' "%20".toList "cam".toList ++ "&pid=".toList ++ "XYZ12".toList ∨
      ∃ href, some href ∈ [some "/x/p/y?pid=Z".toList] ∧
        (strContains "/p/".toList href || strContains "pid=".toList href) = true ∧
        (flipkartChooseUrl [some "/x/p/y?pid=Z".toList] "cam".toList "XYZ12".toList =
            href.takeWhile (fun c => !(c == '?')) ∨
          flipkartChooseUrl [some "/x/p/y?pid=Z".toList] "cam".toList "XYZ12".toList =
            "https://www.flipkart.com".toList ++ href.takeWhile (fun c => !(c == '?')))) ∧
    ({ name := "abcdef".toList, price := '₹' :: pyComma 99, price_num := (99 : Int),
       url := "https://www.amazon.in/dp/B012345678".toList,
       source_id := some "B012345678".toList,
       platform := "amazon".toList } : ProductRecord).url =
      "https://www.amazon.in/dp/".toList ++ "B012345678".toList :=
  ⟨C9_url_resolution.1 [some "/x/p/y?pid=Z".toList] "cam".toList "XYZ12".toList,
   C9_url_resolution.2 1000 "B012345678".toList
     ⟨some "B012345678".toList, some "abcdef".toList, some "₹99".toList⟩ _ (by decide)⟩

/-- Counterexample to C9 as stated: for a relative link that is
listing-specific only through its `pid=` query parameter, the code strips
the whole query string, so the essential identifying parameter is lost
from the resulting URL, which the claim says is kept. -/
theorem C9_counterexample :
    flipkartChooseUrl [some "/gizmo?pid=ABC123&lid=2".toList] "cam".toList "XYZ12".toList =
        "https://www.flipkart.com/gizmo".toList ∧
      strContains "pid=".toList "https://www.flipkart.com/gizmo".toList = false :=
  ⟨by decide, by decide⟩

/-- C3: contrary to the claim, the handler does not survive a malformed
body.  `json.loads` raises before `id_ = data.get("id", 1)` runs, the
`except Exception` block then evaluates `{"jsonrpc": "2.0", "id": id_, ...}`,
and reading the unbound local `id_` raises `UnboundLocalError` out of
`mcp_handler`: no envelope with `error.code = -32603` and no placeholder id
is ever emitted, and no streamed event is produced. -/
theorem C3_malformed_body_raises :
    mcpHandler (amazonSearchAt [] 0 .fail) "amazon".toList
        (.malformed "Expecting value: line 1 column 1 (char 0)".toList) =
      .raised unboundIdMsg ∧
    mcpHandler (amazonSearchAt [] 0 .fail) "amazon".toList
        (.malformed "Expecting value: line 1 column 1 (char 0)".toList) ≠
      .event ⟨.num 1, none,
        some ⟨-32603, "Expecting value: line 1 column 1 (char 0)".toList⟩⟩ :=
  ⟨rfl, by decide⟩

/-- C4 (amended): for a parsed request whose method/tool combination is not
`initialize`, `tools/list`, or `tools/call` with tool `search_products`,
the handler emits one event whose envelope has NO top-level `error` member;
instead its `result` member is the dict `{"error": "Unknown: <method>/<tool>"}`
(the message contains the unrecognized method and tool name), and the
envelope id echoes the request id (default 1 when absent). -/
theorem C4_unknown_method (search : Str → ℚ → Str → SearchResult) (defPlat : Str)
    (d : ReqData)
    (h1 : ¬ d.method = some "initialize".toList)
    (h2 : ¬ d.method = some "tools/list".toList)
    (h3 : ¬ (d.method = some "tools/call".toList ∧
      (match d.params with
        | some p => p.name.getD []
        | none => ([] : Str)) = "search_products".toList)) :
    mcpHandler search defPlat (.parsed d) =
      .event ⟨d.id.getD (.num 1),
        some (.errorDict ("Unknown: ".toList ++ pyShowOpt d.method ++
          '/' :: (match d.params with
            | some p => p.name.getD []
            | none => ([] : Str)))),
        none⟩ := by
  unfold mcpHandler
  simp only
  rw [if_neg h1, if_neg h2, if_neg h3]

/-- Witness for C4 at a concrete request: method "foo", tool "bar", id 7. -/
theorem C4_unknown_method_witness :
    mcpHandler (amazonSearchAt [] 0 .fail) "amazon".toList
        (.parsed ⟨some "foo".toList, some ⟨some "bar".toList, none⟩, some (.num 7)⟩) =
      .event ⟨.num 7, some (.errorDict "Unknown: foo/bar".toList), none⟩ := by
  have h := C4_unknown_method (amazonSearchAt [] 0 .fail) "amazon".toList
    ⟨some "foo".toList, some ⟨some "bar".toList, none⟩, some (.num 7)⟩
    (by decide) (by decide) (by decide)
  simpa using h

/-- Counterexample to C4 as stated: at the same concrete unknown-method
request, the envelope's `error` member is `none` and its `result` member is
populated (with the error-bearing dict), the opposite of the claimed
"error object and no result". -/
theorem C4_counterexample :
    mcpHandler (amazonSearchAt [] 0 .fail) "amazon".toList
        (.parsed ⟨some "foo".toList, some ⟨some "bar".toList, none⟩, some (.num 7)⟩) =
      .event ⟨.num 7, some (.errorDict "Unknown: foo/bar".toList), none⟩ ∧
    (Envelope.mk (.num 7) (some (.errorDict "Unknown: foo/bar".toList)) none).error = none ∧
    ¬ (Envelope.mk (.num 7) (some (.errorDict "Unknown: foo/bar".toList)) none).result = none :=
  ⟨by decide, rfl, by decide⟩

example : pyTitle "cricket bat".toList = "Cricket Bat".toList := by decide

example : pyComma 1500 = "1,500".toList := by decide

example : pyComma (-6) = "-6".toList := by decide
